import Mathlib

/-!
Shallow embedding of `src/bluetooth_mesh_com.py`, class `BluetoothMeshComm`:
the wire codec, the per-node sequence counter, the AES-ECB padding/stripping
wrappers, and the receive/relay path. Byte buffers are `List Nat` whose
entries are below 256 wherever a range matters. The block cipher itself is
abstracted as a pair of functions (`BlockCipher`); theorems that depend on
cipher properties take them as hypotheses (inverse, length preservation),
and concrete witnesses instantiate the identity cipher.

Python exceptions that can escape the embedded methods are modelled
explicitly (`PyError`): the `cryptography` library raises `ValueError` from
`finalize()` when the ciphertext length is not a multiple of the 16-byte
block, and accessing an attribute never assigned (`self.scan_callback`,
`self.advertise_callback`) raises `AttributeError`.
-/

/-- Transport maximum, module constant `MAX_PAYLOAD_SIZE` (line 29). -/
def MAX_PAYLOAD_SIZE : Nat := 23

/-- Default hop budget, module constant `TTL_DEFAULT` (line 30). -/
def TTL_DEFAULT : Nat := 7

/-- Exceptions that can escape the embedded methods. -/
inductive PyError where
  | valueError
  | attributeError
  deriving Repr, DecidableEq

/-- Mutable state of a `BluetoothMeshComm` object. The three `_set` flags
record whether the corresponding Python attribute has been assigned:
`message_callback` is initialized to `None` in `__init__`, while
`scan_callback` and `advertise_callback` are only created by
`_start_scanning` and `_advertise_presence` (both reached from `start`). -/
structure MeshState where
  node_id : Nat
  running : Bool
  sequence_number : Nat
  scan_callback_set : Bool
  advertise_callback_set : Bool
  message_callback_set : Bool
  deriving Repr, DecidableEq

/-- `__init__(node_id, network_key)` (lines 33-42). -/
def initState (node_id : Nat) : MeshState :=
  { node_id := node_id
    running := false
    sequence_number := 0
    scan_callback_set := false
    advertise_callback_set := false
    message_callback_set := false }

/-- `start()` (lines 44-51): if the adapter is enabled, sets `running`,
starts scanning (which assigns `scan_callback`) and launches the presence
thread (whose body assigns `advertise_callback` before looping). Modelled
sequentially, with the thread body having reached its loop. -/
def start (adapter_enabled : Bool) (s : MeshState) : MeshState :=
  if adapter_enabled then
    { s with running := true, scan_callback_set := true, advertise_callback_set := true }
  else s

/-- `stop()` (lines 53-57): sets `running = False`, then calls
`self.scanner.stopScan(self.scan_callback)` and
`self.advertiser.stopAdvertising(self.advertise_callback)`. Each attribute
access raises `AttributeError` when the attribute was never assigned; the
`running` flag has already been cleared by then. -/
def stop (s : MeshState) : Option PyError × MeshState :=
  let s1 := { s with running := false }
  if s1.scan_callback_set = true then
    if s1.advertise_callback_set = true then (none, s1)
    else (some .attributeError, s1)
  else (some .attributeError, s1)

/-- Abstract 16-byte-block cipher: the ECB-mode AES transform pair used by
`_encrypt_payload` / `_decrypt_payload`. Properties (decryption inverts
encryption, length preservation) are taken as hypotheses where needed. -/
structure BlockCipher where
  enc : List Nat → List Nat
  dec : List Nat → List Nat

/-- Identity cipher, used to instantiate witnesses. -/
def idCipher : BlockCipher := ⟨id, id⟩

/-- `_encrypt_payload` (lines 157-162): zero-pads to the next multiple of 16
(`payload + b'\x00' * (16 - len(payload) % 16)`) and encrypts. Note the pad
is a full 16-byte block when the length is already a multiple of 16. -/
def encryptPayload (c : BlockCipher) (payload : List Nat) : List Nat :=
  c.enc (payload ++ List.replicate (16 - payload.length % 16) 0)

/-- Python `bytes.rstrip(b'\x00')`: drop all trailing zero bytes. -/
def rstripZero (l : List Nat) : List Nat :=
  (l.reverse.dropWhile (fun b => b == 0)).reverse

/-- `_decrypt_payload` (lines 164-169): decrypts and strips all trailing
zero bytes. The `cryptography` backend raises `ValueError` at `finalize()`
when the input length is not a multiple of the 16-byte block; that failure
is modelled as `none`. -/
def decryptPayload (c : BlockCipher) (encrypted_payload : List Nat) : Option (List Nat) :=
  if encrypted_payload.length % 16 = 0 then
    some (rstripZero (c.dec encrypted_payload))
  else none

/-- Sequence-counter update on line 129:
`self.sequence_number = (self.sequence_number + 1) % 0xFFFF`. -/
def seqSucc (s : Nat) : Nat := (s + 1) % 0xFFFF

/-- Big-endian 2-byte encoding, `struct.pack('>H', n)` for `n < 65536`. -/
def toBytes2 (n : Nat) : List Nat := [n / 256, n % 256]

/-- Big-endian 2-byte decoding, `struct.unpack('>H', [hi, lo])`. -/
def fromBytes2 (hi lo : Nat) : Nat := hi * 256 + lo

/-- Byte image of `_create_mesh_packet` (lines 123-130). The buffer is
allocated as `bytearray(8 + len(payload))`; byte 0 is the opcode, then
`pack_into('>HHBH', packet, 1, node_id, destination_id, ttl, seq)` fills
bytes 1..7. The final statement `packet[7:] = payload` is a resizing slice
assignment: it replaces everything from offset 7 on with the payload, so
the frame is `7 + len(payload)` bytes and the low byte of the sequence
number is overwritten (or deleted when the payload is empty). -/
def createMeshPacketBytes (node_id destination_id opcode ttl seq : Nat)
    (payload : List Nat) : List Nat :=
  [opcode] ++ toBytes2 node_id ++ toBytes2 destination_id ++ [ttl, seq / 256] ++ payload

/-- `_create_mesh_packet` as a state transformer: returns the frame and the
state with the sequence counter advanced (line 129). -/
def createMeshPacket (s : MeshState) (destination_id opcode : Nat) (payload : List Nat)
    (ttl : Nat) : List Nat × MeshState :=
  (createMeshPacketBytes s.node_id destination_id opcode ttl s.sequence_number payload,
   { s with sequence_number := seqSucc s.sequence_number })

/-- Header fields read by `_process_mesh_message` (lines 137-142). -/
structure DecodedPacket where
  opcode : Nat
  source_id : Nat
  destination_id : Nat
  ttl : Nat
  seq_num : Nat
  payload : List Nat
  deriving Repr, DecidableEq

/-- Decoder part of `_process_mesh_message` (lines 134-142): buffers shorter
than 8 bytes are dropped (`return`); otherwise byte 0 = opcode, bytes 1-2 =
source, bytes 3-4 = destination, byte 5 = ttl, bytes 6-7 = sequence number,
bytes 8.. = (encrypted) payload. -/
def decodePacket (rec : List Nat) : Option DecodedPacket :=
  if rec.length < 8 then none
  else some
    { opcode := rec.getD 0 0
      source_id := fromBytes2 (rec.getD 1 0) (rec.getD 2 0)
      destination_id := fromBytes2 (rec.getD 3 0) (rec.getD 4 0)
      ttl := rec.getD 5 0
      seq_num := fromBytes2 (rec.getD 6 0) (rec.getD 7 0)
      payload := rec.drop 8 }

/-- Arguments with which the relay branch (line 154) rebuilds a packet,
together with the source id and sequence number that `_create_mesh_packet`
writes into the outgoing frame from the relaying node's own state. -/
structure RelayFields where
  destination_id : Nat
  opcode : Nat
  payload : List Nat
  ttl : Nat
  seq : Nat
  source_written : Nat
  deriving Repr, DecidableEq

/-- Observable outcome of one `_process_mesh_message` call: the exception
that escaped (if any), the `(source_id, decrypted payload)` handed to the
message callback (if invoked), the relay rebuild arguments and the relayed
frame (if a relay transmission happened), and the resulting object state. -/
structure RxResult where
  err : Option PyError
  delivered : Option (Nat × List Nat)
  relayFields : Option RelayFields
  relayFrame : Option (List Nat)
  state : MeshState
  deriving Repr, DecidableEq

/-- `_process_mesh_message(scan_record)` (lines 132-155). Drops buffers
shorter than 8 bytes and packets with `ttl == 0`; decrypts (a bad ciphertext
length raises `ValueError` out of the method); delivers to the message
callback when `opcode == 0x01` and a callback is registered (UTF-8 decoding
uses `errors='ignore'`, so it never fails); and when `ttl > 1 and
self.running` rebuilds a packet via `_create_mesh_packet(destination_id,
opcode, payload, ttl - 1)` — consuming the node's own sequence number and
writing the node's own id as source — and advertises it
(`_advertise_packet` touches `self.advertise_callback`, raising
`AttributeError` when it was never assigned, after the counter was already
advanced). -/
def processMeshMessage (c : BlockCipher) (s : MeshState) (rec : List Nat) : RxResult :=
  match decodePacket rec with
  | none => ⟨none, none, none, none, s⟩
  | some p =>
    if p.ttl = 0 then ⟨none, none, none, none, s⟩
    else
      match decryptPayload c p.payload with
      | none => ⟨some .valueError, none, none, none, s⟩
      | some payload =>
        let delivered :=
          if p.opcode = 1 ∧ s.message_callback_set = true then
            some (p.source_id, payload)
          else none
        if 1 < p.ttl ∧ s.running = true then
          let built := createMeshPacket s p.destination_id p.opcode payload (p.ttl - 1)
          if (built.2).advertise_callback_set = true then
            ⟨none, delivered,
             some ⟨p.destination_id, p.opcode, payload, p.ttl - 1,
                   s.sequence_number, s.node_id⟩,
             some built.1, built.2⟩
          else ⟨some .attributeError, delivered, none, none, built.2⟩
        else ⟨none, delivered, none, none, s⟩

/-- Outcome of one `send_message` call: the exception that escaped (if
any), whether the oversize guard rejected the text ("Message too long"),
the frame handed to `_advertise_packet` (if any), and the new state. -/
structure SendResult where
  err : Option PyError
  rejected : Bool
  frame : Option (List Nat)
  state : MeshState
  deriving Repr, DecidableEq

/-- UTF-8 encoding of one Unicode scalar value (Python `str.encode('utf-8')`
acts per character). -/
def utf8EncodeChar (ch : Char) : List Nat :=
  let n := ch.toNat
  if n < 0x80 then [n]
  else if n < 0x800 then [0xC0 + n / 64, 0x80 + n % 64]
  else if n < 0x10000 then [0xE0 + n / 4096, 0x80 + n / 64 % 64, 0x80 + n % 64]
  else [0xF0 + n / 262144, 0x80 + n / 4096 % 64, 0x80 + n / 64 % 64, 0x80 + n % 64]

/-- `text.encode('utf-8')` for a text given as its character sequence. -/
def utf8Encode (text : List Char) : List Nat :=
  (text.map utf8EncodeChar).flatten

/-- `send_message(destination_id, text)` (lines 59-67). The guard is
`if len(text) > MAX_PAYLOAD_SIZE` — Python `len` on a `str` counts
characters, not UTF-8 bytes, and the bound is the 23-byte transport
constant. When the guard passes, the text is UTF-8 encoded, encrypted,
framed with `ttl = TTL_DEFAULT` and the current sequence number (which is
then advanced), and advertised. -/
def sendMessage (c : BlockCipher) (s : MeshState) (destination_id : Nat)
    (text : List Char) : SendResult :=
  if MAX_PAYLOAD_SIZE < text.length then ⟨none, true, none, s⟩
  else
    let payload := utf8Encode text
    let encrypted := encryptPayload c payload
    let built := createMeshPacket s destination_id 1 encrypted TTL_DEFAULT
    if (built.2).advertise_callback_set = true then ⟨none, false, some built.1, built.2⟩
    else ⟨some .attributeError, false, none, built.2⟩

/-- A node that has started successfully: running, all callbacks assigned. -/
def runningState : MeshState :=
  { node_id := 9
    running := true
    sequence_number := 0
    scan_callback_set := true
    advertise_callback_set := true
    message_callback_set := true }

/-! Helper lemmas about zero-stripping. -/

theorem dropWhile_zero_replicate_append (n : Nat) (xs : List Nat) :
    List.dropWhile (fun b => b == 0) (List.replicate n 0 ++ xs) =
      List.dropWhile (fun b => b == 0) xs := by
  induction n with
  | zero => simp
  | succ k ih => simp [List.replicate_succ, List.dropWhile_cons, ih]

theorem rstripZero_append_replicate (l : List Nat) (n : Nat) :
    rstripZero (l ++ List.replicate n 0) = rstripZero l := by
  unfold rstripZero
  rw [List.reverse_append, List.reverse_replicate, dropWhile_zero_replicate_append]

theorem rstripZero_eq_self (l : List Nat) (h : l.getLast? ≠ some 0) :
    rstripZero l = l := by
  unfold rstripZero
  cases hr : l.reverse with
  | nil =>
    have hl : l = [] := by simpa using congrArg List.reverse hr
    simp [hl]
  | cons x t =>
    have hx : x ≠ 0 := by
      intro h0
      apply h
      rw [← List.head?_reverse, hr, h0]
      rfl
    rw [List.dropWhile_cons, if_neg (by simp [hx]), ← hr, List.reverse_reverse]

/-- C1: the codec round-trip fails. Encoding the tuple `(opcode 0x01,
source 1, destination 0xFFFF, ttl 7, sequence 0, payload [0xAA, 0xBB])`
and decoding the result yields sequence number 170 and payload `[0xBB]`:
the encoder's `packet[7:] = payload` writes the payload at offset 7,
clobbering the sequence-number low byte, while the decoder reads the
payload from offset 8. -/
theorem c1_roundtrip_violation :
    decodePacket (createMeshPacketBytes 1 0xFFFF 0x01 7 0 [170, 187]) =
      some ⟨0x01, 1, 0xFFFF, 7, 170, [187]⟩ ∧
    (some (⟨0x01, 1, 0xFFFF, 7, 170, [187]⟩ : DecodedPacket) ≠
      some ⟨0x01, 1, 0xFFFF, 7, 0, [170, 187]⟩) := by decide

/-- C3: the sequence counter wraps one step early. The update on line 129
is `(s + 1) % 0xFFFF`, i.e. modulo 65535: from counter state 65534 the code
moves to 0, whereas `(65534 + 1) % 65536 = 65535` as the claim states. -/
theorem c3_wraparound_off_by_one :
    seqSucc 65534 = 0 ∧ seqSucc 65534 ≠ (65534 + 1) % 65536 := by decide

/-- C5: a received packet whose ttl byte is 0 is dropped before any
decryption: no exception for any cipher, no callback delivery, no relay,
and the node state is unchanged. -/
theorem c5_ttl_zero_drop (c : BlockCipher) (s : MeshState) (rec : List Nat)
    (h8 : 8 ≤ rec.length) (h0 : rec.getD 5 0 = 0) :
    processMeshMessage c s rec = ⟨none, none, none, none, s⟩ := by
  unfold processMeshMessage decodePacket
  rw [if_neg (by omega)]
  dsimp only
  rw [if_pos h0]

/-- C5 witness: an 8-byte frame with ttl byte 0 is dropped cleanly. -/
theorem c5_ttl_zero_drop_witness :
    processMeshMessage idCipher (initState 1) [1, 0, 2, 0, 3, 0, 0, 0] =
      ⟨none, none, none, none, initState 1⟩ :=
  c5_ttl_zero_drop idCipher (initState 1) [1, 0, 2, 0, 3, 0, 0, 0]
    (by decide) (by decide)

/-- C8: cipher round-trip. For any block transform pair where decryption
inverts encryption and encryption preserves length, and any plaintext of
1..15 bytes not ending in a zero byte, decrypting the encrypted payload
returns exactly the plaintext: the zero padding brings the buffer to 16
bytes and `rstrip(b'\x00')` removes exactly the pad. -/
theorem c8_cipher_roundtrip (c : BlockCipher)
    (hinv : ∀ b, c.dec (c.enc b) = b)
    (hlen : ∀ b, (c.enc b).length = b.length)
    (p : List Nat) (h1 : 1 ≤ p.length) (h2 : p.length ≤ 15)
    (h3 : p.getLast? ≠ some 0) :
    decryptPayload c (encryptPayload c p) = some p := by
  have hm : p.length % 16 = p.length := Nat.mod_eq_of_lt (by omega)
  have hpadlen : (p ++ List.replicate (16 - p.length % 16) 0).length = 16 := by
    simp [hm]; omega
  unfold encryptPayload decryptPayload
  rw [hlen, hinv, hpadlen, if_pos (by norm_num),
    rstripZero_append_replicate, rstripZero_eq_self p h3]

/-- C8 witness: round-trip at the one-byte plaintext `[65]` under the
identity cipher. -/
theorem c8_cipher_roundtrip_witness :
    decryptPayload idCipher (encryptPayload idCipher [65]) = some [65] :=
  c8_cipher_roundtrip idCipher (fun _ => rfl) (fun _ => rfl) [65]
    (by decide) (by decide) (by decide)

/-- C10: for any length-preserving encryption, the ciphertext length is
`len + (16 - len % 16)`: strictly longer than the plaintext and a nonzero
multiple of 16 (a full extra block is added when the length is already a
multiple of 16). -/
theorem c10_padding_length (c : BlockCipher)
    (hlen : ∀ b, (c.enc b).length = b.length) (p : List Nat) :
    (encryptPayload c p).length = p.length + (16 - p.length % 16) ∧
    p.length < (encryptPayload c p).length ∧
    (encryptPayload c p).length % 16 = 0 ∧
    (encryptPayload c p).length ≠ 0 := by
  have hL : (encryptPayload c p).length = p.length + (16 - p.length % 16) := by
    unfold encryptPayload
    rw [hlen]
    simp
  refine ⟨hL, ?_, ?_, ?_⟩ <;> rw [hL] <;> omega

/-- C10 witness: the padded length facts at the one-byte payload `[65]`
under the identity cipher. -/
theorem c10_padding_length_witness :
    (encryptPayload idCipher [65]).length =
      ([65] : List Nat).length + (16 - ([65] : List Nat).length % 16) ∧
    ([65] : List Nat).length < (encryptPayload idCipher [65]).length ∧
    (encryptPayload idCipher [65]).length % 16 = 0 ∧
    (encryptPayload idCipher [65]).length ≠ 0 :=
  c10_padding_length idCipher (fun _ => rfl) [65]

/-- C4 counterexample: a 9-byte frame with ttl 7 carries a 1-byte
ciphertext, whose length is not a multiple of the 16-byte block; instead of
a silent drop, the decryptor's `ValueError` escapes `_process_mesh_message`
(there is no try/except on the receive path). -/
theorem c4_counterexample :
    (processMeshMessage idCipher runningState [1, 0, 5, 0, 7, 7, 0, 0, 65]).err =
      some PyError.valueError := by decide

/-- C4 as amended: buffers shorter than 8 bytes and packets with ttl byte 0
are dropped silently (UTF-8 decoding uses `errors='ignore'` and never
fails), but a ciphertext whose length is not a multiple of 16 makes the
decryption raise an uncaught `ValueError` that propagates out of the
receive routine, with no delivery and no relay. -/
theorem c4_receive_failures (c : BlockCipher) (s : MeshState) (rec : List Nat) :
    (rec.length < 8 → processMeshMessage c s rec = ⟨none, none, none, none, s⟩) ∧
    (8 ≤ rec.length → rec.getD 5 0 = 0 →
      processMeshMessage c s rec = ⟨none, none, none, none, s⟩) ∧
    (8 ≤ rec.length → rec.getD 5 0 ≠ 0 → (rec.length - 8) % 16 ≠ 0 →
      processMeshMessage c s rec = ⟨some .valueError, none, none, none, s⟩) := by
  refine ⟨?_, ?_, ?_⟩
  · intro h8
    unfold processMeshMessage decodePacket
    rw [if_pos h8]
  · intro h8 h0
    unfold processMeshMessage decodePacket
    rw [if_neg (by omega)]
    dsimp only
    rw [if_pos h0]
  · intro h8 ht hbad
    have hdec : decryptPayload c (rec.drop 8) = none := by
      unfold decryptPayload
      rw [List.length_drop, if_neg hbad]
    unfold processMeshMessage decodePacket
    rw [if_neg (by omega)]
    dsimp only
    rw [if_neg ht, hdec]

/-- C4 witness: a 10-byte frame (2-byte ciphertext, ttl 4) makes the
receive path raise `ValueError` with no delivery, no relay and no state
change. -/
theorem c4_receive_failures_witness :
    processMeshMessage idCipher runningState [1, 0, 5, 0, 6, 4, 0, 0, 65, 66] =
      ⟨some PyError.valueError, none, none, none, runningState⟩ :=
  (c4_receive_failures idCipher runningState [1, 0, 5, 0, 6, 4, 0, 0, 65, 66]).2.2
    (by decide) (by decide) (by decide)

/-- C7 counterexample: ten euro signs (U+20AC) encode to 30 UTF-8 bytes,
beyond any plaintext cap the transport admits (23-byte frames, 15-byte
plaintext), yet `send_message` transmits: the guard compares the character
count (10) against `MAX_PAYLOAD_SIZE`, not the encoded byte length. -/
theorem c7_counterexample :
    (utf8Encode (List.replicate 10 (Char.ofNat 8364))).length = 30 ∧
    (sendMessage idCipher runningState 0xFFFF
        (List.replicate 10 (Char.ofNat 8364))).rejected = false ∧
    (sendMessage idCipher runningState 0xFFFF
        (List.replicate 10 (Char.ofNat 8364))).frame.isSome = true := by decide

/-- C7 as amended: `send_message` rejects ("Message too long", nothing
sent, no state change) exactly when the character count of the text exceeds
`MAX_PAYLOAD_SIZE` (23); otherwise it UTF-8-encodes and encrypts the text
and hands one frame with `ttl = TTL_DEFAULT` (7) and the current sequence
number to the advertiser, advancing the counter. -/
theorem c7_send_guard (c : BlockCipher) (s : MeshState) (destination_id : Nat)
    (text : List Char) (hadv : s.advertise_callback_set = true) :
    ((sendMessage c s destination_id text).rejected = true ↔
      MAX_PAYLOAD_SIZE < text.length) ∧
    (MAX_PAYLOAD_SIZE < text.length →
      sendMessage c s destination_id text = ⟨none, true, none, s⟩) ∧
    (text.length ≤ MAX_PAYLOAD_SIZE →
      sendMessage c s destination_id text =
        ⟨none, false,
         some (createMeshPacketBytes s.node_id destination_id 1 TTL_DEFAULT
           s.sequence_number (encryptPayload c (utf8Encode text))),
         { s with sequence_number := seqSucc s.sequence_number }⟩) := by
  by_cases hg : MAX_PAYLOAD_SIZE < text.length
  · refine ⟨?_, ?_, ?_⟩
    · unfold sendMessage
      rw [if_pos hg]
      simp [hg]
    · intro _
      unfold sendMessage
      rw [if_pos hg]
    · intro hle
      omega
  · refine ⟨?_, ?_, ?_⟩
    · unfold sendMessage createMeshPacket
      rw [if_neg hg]
      dsimp only
      rw [if_pos hadv]
      simp [hg]
    · intro hlt
      exact absurd hlt hg
    · intro _
      unfold sendMessage createMeshPacket
      rw [if_neg hg]
      dsimp only
      rw [if_pos hadv]

/-- C7 witness: the two-character text "hi" passes the guard and is
transmitted as one frame with ttl 7 and sequence number 0. -/
theorem c7_send_guard_witness :
    ((sendMessage idCipher runningState 0xFFFF ['h', 'i']).rejected = true ↔
      MAX_PAYLOAD_SIZE < (['h', 'i'] : List Char).length) ∧
    (MAX_PAYLOAD_SIZE < (['h', 'i'] : List Char).length →
      sendMessage idCipher runningState 0xFFFF ['h', 'i'] =
        ⟨none, true, none, runningState⟩) ∧
    ((['h', 'i'] : List Char).length ≤ MAX_PAYLOAD_SIZE →
      sendMessage idCipher runningState 0xFFFF ['h', 'i'] =
        ⟨none, false,
         some (createMeshPacketBytes runningState.node_id 0xFFFF 1 TTL_DEFAULT
           runningState.sequence_number
           (encryptPayload idCipher (utf8Encode ['h', 'i']))),
         { runningState with
            sequence_number := seqSucc runningState.sequence_number }⟩) :=
  c7_send_guard idCipher runningState 0xFFFF ['h', 'i'] rfl

/-- C9 counterexample: `stop()` on a freshly constructed node (no `start()`
ever ran) is not a no-op: the access to the never-assigned
`self.scan_callback` raises `AttributeError` (the `running` flag has
already been set to `False` when it does). -/
theorem c9_counterexample :
    (stop (initState 1)).1 = some PyError.attributeError := by decide

/-- C9 as amended: once a successful `start()` has assigned the scan and
advertise callbacks, calling `stop()` while already Stopped is a no-op: it
does not fail and leaves the state unchanged (still Stopped). But before
any successful `start()`, `stop()` raises `AttributeError`. -/
theorem c9_stop_after_start (s : MeshState) (hscan : s.scan_callback_set = true)
    (hadv : s.advertise_callback_set = true) (hstopped : s.running = false) :
    stop s = (none, s) := by
  have hfix : ({ s with running := false } : MeshState) = s := by
    cases s
    simp_all
  unfold stop
  dsimp only
  rw [hfix, if_pos hscan, if_pos hadv]

/-- C9 witness: a node that started and stopped once (callbacks assigned,
not running) is left unchanged by a second `stop()`, with no exception. -/
theorem c9_stop_after_start_witness :
    stop { node_id := 1, running := false, sequence_number := 0,
           scan_callback_set := true, advertise_callback_set := true,
           message_callback_set := false } =
      (none, { node_id := 1, running := false, sequence_number := 0,
               scan_callback_set := true, advertise_callback_set := true,
               message_callback_set := false }) :=
  c9_stop_after_start _ rfl rfl rfl

/-- Received frame used for the C2 claim: source node 5, destination 7,
opcode 0x01, ttl 3, sequence 0, with a 16-byte ciphertext that decrypts
(under the identity cipher) to the single byte `[65]`. -/
def c2Frame : List Nat := [1, 0, 5, 0, 7, 3, 0, 0] ++ [65] ++ List.replicate 15 0

/-- C2 counterexample: node 9 relays the frame originated by node 5, but
the relayed packet is rebuilt by `_create_mesh_packet`, which always writes
`self.node_id` into the source field: the outgoing source id is 9, not the
received source_id 5. -/
theorem c2_counterexample :
    (processMeshMessage idCipher runningState c2Frame).relayFrame.isSome = true ∧
    (processMeshMessage idCipher runningState c2Frame).relayFields.map
        RelayFields.source_written ≠
      some (fromBytes2 (c2Frame.getD 1 0) (c2Frame.getD 2 0)) := by decide

/-- C2 as amended: every relayed packet carries the same opcode, the same
destination_id and the same decrypted payload as the received packet, with
ttl decremented by 1 and the relaying node's own next sequence number —
but the source field of the outgoing frame is the relaying node's own id,
not the received source_id. -/
theorem c2_relay_fields (c : BlockCipher) (s : MeshState) (rec : List Nat)
    (rf : RelayFields)
    (h : (processMeshMessage c s rec).relayFields = some rf) :
    rf.opcode = rec.getD 0 0 ∧
    rf.destination_id = fromBytes2 (rec.getD 3 0) (rec.getD 4 0) ∧
    decryptPayload c (rec.drop 8) = some rf.payload ∧
    rf.ttl = rec.getD 5 0 - 1 ∧
    rf.seq = s.sequence_number ∧
    rf.source_written = s.node_id := by
  revert h
  unfold processMeshMessage decodePacket
  by_cases h8 : rec.length < 8
  · rw [if_pos h8]
    intro h
    simp at h
  · rw [if_neg h8]
    dsimp only
    intro h
    split at h
    · simp at h
    · split at h
      · simp at h
      · rename_i payload heq
        split at h
        · split at h
          · simp only [Option.some.injEq] at h
            subst h
            exact ⟨rfl, rfl, heq, rfl, rfl, rfl⟩
          · simp at h
        · simp at h

/-- C2 witness: the amended statement at the concrete relay of `c2Frame`
by node 9 (relay fields `(destination 7, opcode 1, payload [65], ttl 2,
sequence 0, source 9)`). -/
theorem c2_relay_fields_witness :
    (⟨7, 1, [65], 2, 0, 9⟩ : RelayFields).opcode = c2Frame.getD 0 0 ∧
    (⟨7, 1, [65], 2, 0, 9⟩ : RelayFields).destination_id =
      fromBytes2 (c2Frame.getD 3 0) (c2Frame.getD 4 0) ∧
    decryptPayload idCipher (c2Frame.drop 8) =
      some (⟨7, 1, [65], 2, 0, 9⟩ : RelayFields).payload ∧
    (⟨7, 1, [65], 2, 0, 9⟩ : RelayFields).ttl = c2Frame.getD 5 0 - 1 ∧
    (⟨7, 1, [65], 2, 0, 9⟩ : RelayFields).seq = runningState.sequence_number ∧
    (⟨7, 1, [65], 2, 0, 9⟩ : RelayFields).source_written = runningState.node_id :=
  c2_relay_fields idCipher runningState c2Frame ⟨7, 1, [65], 2, 0, 9⟩ (by decide)

/-- C6: for a well-formed frame (at least 8 bytes, ciphertext length a
multiple of 16) received by a running node with the advertiser callback in
place, a relay transmission occurs exactly when the received ttl exceeds 1;
the relayed packet has ttl one less than received and the node's own next
sequence number; and a frame with ttl 1 is delivered (when opcode is 0x01
and a callback is registered) but not relayed. -/
theorem c6_relay_decision (c : BlockCipher) (s : MeshState) (rec : List Nat)
    (h8 : 8 ≤ rec.length) (hmul : (rec.length - 8) % 16 = 0)
    (hrun : s.running = true) (hadv : s.advertise_callback_set = true) :
    ((processMeshMessage c s rec).relayFrame.isSome = true ↔ 1 < rec.getD 5 0) ∧
    ((processMeshMessage c s rec).relayFields.map RelayFields.ttl =
      if 1 < rec.getD 5 0 then some (rec.getD 5 0 - 1) else none) ∧
    ((processMeshMessage c s rec).relayFields.map RelayFields.seq =
      if 1 < rec.getD 5 0 then some s.sequence_number else none) ∧
    (rec.getD 5 0 = 1 →
      (processMeshMessage c s rec).relayFrame = none ∧
      (rec.getD 0 0 = 1 → s.message_callback_set = true →
        (processMeshMessage c s rec).delivered.isSome = true)) := by
  have hdec : decryptPayload c (rec.drop 8) =
      some (rstripZero (c.dec (rec.drop 8))) := by
    unfold decryptPayload
    rw [List.length_drop, if_pos hmul]
  by_cases h0 : rec.getD 5 0 = 0
  · have hres : processMeshMessage c s rec = ⟨none, none, none, none, s⟩ := by
      unfold processMeshMessage decodePacket
      rw [if_neg (by omega)]
      dsimp only
      rw [if_pos h0]
    rw [hres]
    refine ⟨?_, ?_, ?_, ?_⟩
    · constructor
      · intro hx
        exact absurd hx (by simp)
      · intro hx
        omega
    · rw [if_neg (by omega)]
      rfl
    · rw [if_neg (by omega)]
      rfl
    · intro hx
      exact absurd hx (by omega)
  · by_cases h1 : 1 < rec.getD 5 0
    · unfold processMeshMessage decodePacket createMeshPacket
      rw [if_neg (by omega)]
      dsimp only
      rw [if_neg h0, hdec]
      dsimp only
      rw [if_pos ⟨h1, hrun⟩, if_pos hadv]
      refine ⟨?_, ?_, ?_, ?_⟩
      · constructor
        · intro _
          exact h1
        · intro _
          rfl
      · rw [if_pos h1]
        rfl
      · rw [if_pos h1]
        rfl
      · intro hx
        exact absurd hx (by omega)
    · unfold processMeshMessage decodePacket
      rw [if_neg (by omega)]
      dsimp only
      rw [if_neg h0, hdec]
      dsimp only
      rw [if_neg (fun hc => h1 hc.1)]
      refine ⟨?_, ?_, ?_, ?_⟩
      · constructor
        · intro hx
          exact absurd hx (by simp)
        · intro hx
          exact absurd hx h1
      · rw [if_neg h1]
        rfl
      · rw [if_neg h1]
        rfl
      · intro hx
        refine ⟨rfl, ?_⟩
        intro hop hcb
        dsimp only
        rw [if_pos ⟨hop, hcb⟩]
        rfl

/-- Frame used for the C6 witness: ttl 5, opcode 0x01, source 5, a 16-byte
all-zero ciphertext. -/
def c6rec : List Nat := [1, 0, 5, 0, 7, 5, 0, 0] ++ List.replicate 16 0

/-- C6 witness: the relay decision at the concrete frame `c6rec` (ttl 5)
received by running node 9. -/
theorem c6_relay_decision_witness :
    ((processMeshMessage idCipher runningState c6rec).relayFrame.isSome = true ↔
      1 < c6rec.getD 5 0) ∧
    ((processMeshMessage idCipher runningState c6rec).relayFields.map RelayFields.ttl =
      if 1 < c6rec.getD 5 0 then some (c6rec.getD 5 0 - 1) else none) ∧
    ((processMeshMessage idCipher runningState c6rec).relayFields.map RelayFields.seq =
      if 1 < c6rec.getD 5 0 then some runningState.sequence_number else none) ∧
    (c6rec.getD 5 0 = 1 →
      (processMeshMessage idCipher runningState c6rec).relayFrame = none ∧
      (c6rec.getD 0 0 = 1 → runningState.message_callback_set = true →
        (processMeshMessage idCipher runningState c6rec).delivered.isSome = true)) :=
  c6_relay_decision idCipher runningState c6rec (by decide) (by decide) rfl rfl
